import Mathlib

/-!
Shallow embedding of the CursorCam tracking core (src/app.py).

Coordinates, ratios and timestamps are modelled as rationals.  The two
comparisons that the source performs on square roots, namely
  abs (points - mean) < 2 * std        (FaceTracker.calibrate)
  norm velocity > MOVEMENT_THRESHOLD   (FaceTracker.update_position)
are embedded in the mathematically equivalent squared form
  (points - mean) ^ 2 < 4 * variance
  vx ^ 2 + vy ^ 2 > MOVEMENT_THRESHOLD ^ 2
since both sides are nonnegative and squaring is strictly monotone there.
Square roots that flow into returned values (the aspect-ratio numerators and
the power-law expansion) are kept as an explicit function parameter so the
definitions stay executable.
-/

namespace CursorCam

-- Constants of the Config class in src/app.py, as exact rationals.
namespace Config

def MOUSE_SPEED : ℚ := 6 / 5

def SCREEN_PADDING : ℤ := 50

def ACCELERATION_FACTOR : ℚ := 3 / 2

def DECELERATION_FACTOR : ℚ := 4 / 5

def CALIBRATION_FRAMES : ℕ := 15

def CALIBRATION_THRESHOLD : ℚ := 7 / 10

def MOVEMENT_THRESHOLD : ℚ := 2

def SMOOTH_FACTOR : ℚ := 3 / 10

def EYE_AR_CONSEC_FRAMES : ℕ := 2

def BLINK_COOLDOWN : ℚ := 1

def MOUTH_AR_CONSEC_FRAMES : ℕ := 3

def MOUTH_COOLDOWN : ℚ := 1

def BLINK_SENSITIVITY : ℚ := 23 / 100

def MOUTH_SENSITIVITY : ℚ := 1 / 2

end Config

/-- A 2D point or vector, as used for landmarks and cursor positions. -/
abbrev Pt := ℚ × ℚ

/-- Squared Euclidean distance between two points; np.linalg.norm in the
source is the square root of this. -/
def distSq (p q : Pt) : ℚ := (p.1 - q.1) ^ 2 + (p.2 - q.2) ^ 2

/-- Mutable state of the GestureDetector class: the two consecutive-frame
counters and the two last-trigger timestamps. -/
structure GestureState where
  eye_ar_counter : ℕ
  mouth_ar_counter : ℕ
  last_blink_time : ℚ
  last_mouth_time : ℚ
  deriving Repr, DecidableEq

/-- GestureDetector.detect_blink, lines 188 to 214 of src/app.py, acting on
the already computed mean eye aspect ratio.  Arguments: current state, the
ratio, the threshold, the current time.  Returns the updated state and the
Boolean the method returns. -/
def detect_blink (s : GestureState) (ear threshold now : ℚ) :
    GestureState × Bool :=
  if ear < threshold then
    ({ s with eye_ar_counter := s.eye_ar_counter + 1 }, false)
  else if Config.EYE_AR_CONSEC_FRAMES ≤ s.eye_ar_counter ∧
      Config.BLINK_COOLDOWN ≤ now - s.last_blink_time then
    ({ s with last_blink_time := now }, true)
  else
    ({ s with eye_ar_counter := 0 }, false)

/-- GestureDetector.detect_mouth_open, lines 216 to 240 of src/app.py,
acting on the already computed mouth aspect ratio. -/
def detect_mouth_open (s : GestureState) (mouth_ratio threshold now : ℚ) :
    GestureState × Bool :=
  if threshold < mouth_ratio then
    ({ s with mouth_ar_counter := s.mouth_ar_counter + 1 }, false)
  else if Config.MOUTH_AR_CONSEC_FRAMES ≤ s.mouth_ar_counter ∧
      Config.MOUTH_COOLDOWN ≤ now - s.last_mouth_time then
    ({ s with last_mouth_time := now }, true)
  else
    ({ s with mouth_ar_counter := 0 }, false)

/-- Run detect_blink over a list of frames, each frame giving the eye aspect
ratio and the wall-clock time of that frame.  Returns the final state and
the list of returned Booleans. -/
def runBlink (threshold : ℚ) : GestureState → List (ℚ × ℚ) →
    GestureState × List Bool
  | s, [] => (s, [])
  | s, (ear, t) :: rest =>
    let step := detect_blink s ear threshold t
    let tail := runBlink threshold step.1 rest
    (tail.1, step.2 :: tail.2)

/-- GestureDetector.get_eye_aspect_ratio, lines 242 to 263 of src/app.py.
The landmark set is a total function from indices to points, mirroring
dlib part(i); the source extracts the six points start .. start+5 (the
stop argument at both call sites is start+5).  The square root used by
np.linalg.norm is passed in as sq. -/
def get_eye_aspect_ratio (sq : ℚ → ℚ) (landmarks : ℕ → Pt) (start : ℕ) : ℚ :=
  let p0 := landmarks start
  let p1 := landmarks (start + 1)
  let p2 := landmarks (start + 2)
  let p3 := landmarks (start + 3)
  let p4 := landmarks (start + 4)
  let p5 := landmarks (start + 5)
  let v1 := sq (distSq p1 p5)
  let v2 := sq (distSq p2 p4)
  let h := sq (distSq p0 p3)
  if 0 < h then (v1 + v2) / (2 * h) else 0

/-- GestureDetector.get_mouth_aspect_ratio, lines 265 to 286 of src/app.py:
outer mouth landmarks 60 to 67, vertical distances between points 2,6 and
3,5, horizontal distance between points 0 and 4. -/
def get_mouth_aspect_ratio (sq : ℚ → ℚ) (landmarks : ℕ → Pt) : ℚ :=
  let m0 := landmarks 60
  let m2 := landmarks 62
  let m3 := landmarks 63
  let m4 := landmarks 64
  let m5 := landmarks 65
  let m6 := landmarks 66
  let v1 := sq (distSq m2 m6)
  let v2 := sq (distSq m3 m5)
  let h := sq (distSq m0 m4)
  if 0 < h then (v1 + v2) / (2 * h) else 0

/-- A user region-lock rectangle, x1, y1, x2, y2 as in the source. -/
abbrev Region := ℤ × ℤ × ℤ × ℤ

/-- The UserProfile fields the core reads and the settings operation
writes (src/app.py lines 89 to 97). -/
structure Profile where
  sensitivity : ℚ
  smoothing : ℚ
  blink_threshold : ℚ
  mouth_threshold : ℚ
  region_bounds : Option Region
  deriving Repr, DecidableEq

/-- The profile built by UserProfile.__init__ for a fresh name. -/
def defaultProfile : Profile :=
  { sensitivity := 1
    smoothing := 3 / 20
    blink_threshold := Config.BLINK_SENSITIVITY
    mouth_threshold := Config.MOUTH_SENSITIVITY
    region_bounds := none }

/-- Mutable state of the FaceTracker class in src/app.py (lines 308 to 324)
restricted to the fields the tracking core reads or writes; screen
dimensions are the integer pixel sizes reported by the OS. -/
structure TrackerState where
  velocity : Pt
  screen_w : ℤ
  screen_h : ℤ
  is_calibrated : Bool
  calibration_points : List Pt
  reference_point : Option Pt
  last_update : ℚ
  gesture : GestureState
  is_paused : Bool
  is_tracking : Bool
  current_profile : Profile
  deriving Repr, DecidableEq

/-- FaceTracker.__init__: zero velocity, empty buffer, no reference, not
paused, tracking ON initially; t0 is the construction time. -/
def initTracker (sw sh : ℤ) (t0 : ℚ) : TrackerState :=
  { velocity := (0, 0)
    screen_w := sw
    screen_h := sh
    is_calibrated := false
    calibration_points := []
    reference_point := none
    last_update := t0
    gesture := { eye_ar_counter := 0, mouth_ar_counter := 0,
                 last_blink_time := t0, last_mouth_time := t0 }
    is_paused := false
    is_tracking := true
    current_profile := defaultProfile }

/-- FaceTracker.toggle_tracking, lines 326 to 332 of src/app.py: flip the
flag; when the new flag is off, also drop the calibrated flag and empty the
calibration buffer.  Returns the new state and the returned flag. -/
def toggle_tracking (s : TrackerState) : TrackerState × Bool :=
  let b := !s.is_tracking
  if b = false then
    ({ s with is_tracking := b, is_calibrated := false,
              calibration_points := [] }, b)
  else
    ({ s with is_tracking := b }, b)

/-- FaceTracker.toggle_pause, lines 412 to 414 of src/app.py. -/
def toggle_pause (s : TrackerState) : TrackerState × Bool :=
  ({ s with is_paused := !s.is_paused }, !s.is_paused)

/-- Mean of a list of rationals, np.mean with axis 0 on one column. -/
def listMean (l : List ℚ) : ℚ := l.sum / l.length

/-- The good-point filter of FaceTracker.calibrate (line 394): keep the
points whose per-axis absolute deviation from the mean is strictly below
twice the per-axis standard deviation.  Embedded in squared form:
(coordinate - mean) ^ 2 < 4 * variance, which over the reals is exactly
abs (coordinate - mean) < 2 * std. -/
def goodPoints (pts : List Pt) : List Pt :=
  let mx := listMean (pts.map Prod.fst)
  let my := listMean (pts.map Prod.snd)
  let vx := listMean (pts.map fun q => (q.1 - mx) ^ 2)
  let vy := listMean (pts.map fun q => (q.2 - my) ^ 2)
  pts.filter fun q =>
    decide ((q.1 - mx) ^ 2 < 4 * vx) && decide ((q.2 - my) ^ 2 < 4 * vy)

/-- Per-axis mean of a list of points, np.mean with axis 0. -/
def meanPoint (pts : List Pt) : Pt :=
  (listMean (pts.map Prod.fst), listMean (pts.map Prod.snd))

/-- FaceTracker.calibrate, lines 380 to 410 of src/app.py.  While the buffer
holds fewer than CALIBRATION_FRAMES points, append and return False.  Once
full, filter to the good points; if at least CALIBRATION_FRAMES times
CALIBRATION_THRESHOLD of them remain, set the reference to their mean, mark
calibrated, zero the velocity and return True, leaving the buffer as it is;
otherwise empty the buffer and return False. -/
def calibrate (s : TrackerState) (face_point : Pt) : TrackerState × Bool :=
  if s.calibration_points.length < Config.CALIBRATION_FRAMES then
    ({ s with calibration_points := s.calibration_points ++ [face_point] },
     false)
  else
    let good := goodPoints s.calibration_points
    if (Config.CALIBRATION_FRAMES : ℚ) * Config.CALIBRATION_THRESHOLD ≤
        (good.length : ℚ) then
      ({ s with reference_point := some (meanPoint good),
                is_calibrated := true,
                velocity := (0, 0) }, true)
    else
      ({ s with calibration_points := [] }, false)

/-- Run calibrate over a list of observed points, returning the final state
and the list of returned Booleans. -/
def runCalibrate : TrackerState → List Pt → TrackerState × List Bool
  | s, [] => (s, [])
  | s, p :: rest =>
    let step := calibrate s p
    let tail := runCalibrate step.1 rest
    (tail.1, step.2 :: tail.2)

/-- np.sign on a rational. -/
def rsign (q : ℚ) : ℚ := if 0 < q then 1 else if q < 0 then -1 else 0

/-- The sign-preserving power-law expansion of line 348,
np.sign d * np.power (np.abs d) 1.5; the fractional power is
abs d * sq (abs d) with sq the square-root parameter. -/
def powExpand (sq : ℚ → ℚ) (d : ℚ) : ℚ := rsign d * (|d| * sq |d|)

/-- np.clip: min (max v lo) hi, also when lo exceeds hi. -/
def clipQ (v lo hi : ℚ) : ℚ := min (max v lo) hi

/-- np.clip on integers. -/
def clipZ (v lo hi : ℤ) : ℤ := min (max v lo) hi

/-- numpy astype int: truncation toward zero. -/
def ratTrunc (q : ℚ) : ℤ := if 0 ≤ q then ⌊q⌋ else ⌈q⌉

/-- The velocity computation inside FaceTracker.update_position, lines 344
to 360 of src/app.py: the displacement of the face point from the
reference, expanded per axis by the sign-preserving power law, scaled by
MOUSE_SPEED, low-pass blended with the previous velocity, then accelerated
or decelerated by the speed test (in the exact squared form of the norm
comparison against MOVEMENT_THRESHOLD). -/
def next_velocity (sq : ℚ → ℚ) (velocity face_point ref : Pt) : Pt :=
  let dx := powExpand sq (face_point.1 - ref.1)
  let dy := powExpand sq (face_point.2 - ref.2)
  let tvx := dx * Config.MOUSE_SPEED
  let tvy := dy * Config.MOUSE_SPEED
  let bvx := velocity.1 * Config.SMOOTH_FACTOR + tvx * (1 - Config.SMOOTH_FACTOR)
  let bvy := velocity.2 * Config.SMOOTH_FACTOR + tvy * (1 - Config.SMOOTH_FACTOR)
  if Config.MOVEMENT_THRESHOLD ^ 2 < bvx ^ 2 + bvy ^ 2 then
    (bvx * Config.ACCELERATION_FACTOR, bvy * Config.ACCELERATION_FACTOR)
  else
    (bvx * Config.DECELERATION_FACTOR, bvy * Config.DECELERATION_FACTOR)

/-- FaceTracker.update_position, lines 334 to 378 of src/app.py.  Returns
None when not calibrated or not tracking; a missing reference makes the
numpy subtraction raise, the handler returns None (after last_update was
already advanced).  Otherwise: displacement from the reference, power-law
expansion per axis, velocity low-pass blend, acceleration or deceleration
by the speed test, step from the current cursor position by velocity times
dt, clamp to the padded screen and truncate to integers.  now is the
wall-clock time (dt = now - last_update) and current_pos the cursor
position reported by the OS. -/
def update_position (sq : ℚ → ℚ) (s : TrackerState) (face_point : Pt)
    (now : ℚ) (current_pos : Pt) : TrackerState × Option (ℤ × ℤ) :=
  if !s.is_calibrated || !s.is_tracking then (s, none)
  else
    match s.reference_point with
    | none => ({ s with last_update := now }, none)
    | some ref =>
      let dt := now - s.last_update
      let v := next_velocity sq s.velocity face_point ref
      let nx := current_pos.1 + v.1 * dt
      let ny := current_pos.2 + v.2 * dt
      ({ s with last_update := now, velocity := v },
       some (ratTrunc (clipQ nx (Config.SCREEN_PADDING : ℚ)
               ((s.screen_w : ℚ) - (Config.SCREEN_PADDING : ℚ))),
             ratTrunc (clipQ ny (Config.SCREEN_PADDING : ℚ)
               ((s.screen_h : ℚ) - (Config.SCREEN_PADDING : ℚ)))))

/-- The cursor target that one call of process_frame (lines 495 to 564 of
src/app.py) passes to the cursor actuator: nothing when tracking is off,
when paused, when still calibrating, or when update_position yields None;
otherwise the update_position result, further clamped to the active
region-lock rectangle when the profile has one. -/
def process_frame_target (sq : ℚ → ℚ) (s : TrackerState) (face_point : Pt)
    (now : ℚ) (current_pos : Pt) : Option (ℤ × ℤ) :=
  if s.is_tracking = false then none
  else if s.is_paused = true then none
  else if s.is_calibrated = false then none
  else
    match (update_position sq s face_point now current_pos).2 with
    | none => none
    | some t =>
      match s.current_profile.region_bounds with
      | none => some t
      | some (x1, y1, x2, y2) => some (clipZ t.1 x1 x2, clipZ t.2 y1 y2)

/-- A raw settings value as it arrives in the JSON payload: either a value
the Python float conversion accepts, or one on which it raises. -/
inductive RawVal where
  | num (q : ℚ)
  | invalid
  deriving Repr, DecidableEq

/-- A settings payload for FaceTracker.update_settings: each numeric field
may be absent or present with a raw value; region_bounds is assigned
without conversion, so it carries an optional rectangle directly. -/
structure SettingsPayload where
  sensitivity : Option RawVal
  smoothing : Option RawVal
  blink_threshold : Option RawVal
  mouth_threshold : Option RawVal
  region_bounds : Option (Option Region)
  deriving Repr, DecidableEq

/-- One conditional field assignment of update_settings: absent field skips,
a numeric value is converted and written, an invalid value raises, carrying
the profile as mutated so far. -/
def applyField (p : Profile) (v : Option RawVal)
    (write : Profile → ℚ → Profile) : Except Profile Profile :=
  match v with
  | none => Except.ok p
  | some (RawVal.num q) => Except.ok (write p q)
  | some RawVal.invalid => Except.error p

/-- FaceTracker.update_settings, lines 420 to 432 of src/app.py: the five
fields are processed in source order, each float conversion may raise, and
there is no rollback, so the error value carries the partially updated
profile. -/
def update_settings (p : Profile) (sp : SettingsPayload) :
    Except Profile Profile :=
  match applyField p sp.sensitivity (fun p q => { p with sensitivity := q }) with
  | Except.error e => Except.error e
  | Except.ok p1 =>
  match applyField p1 sp.smoothing (fun p q => { p with smoothing := q }) with
  | Except.error e => Except.error e
  | Except.ok p2 =>
  match applyField p2 sp.blink_threshold
      (fun p q => { p with blink_threshold := q }) with
  | Except.error e => Except.error e
  | Except.ok p3 =>
  match applyField p3 sp.mouth_threshold
      (fun p q => { p with mouth_threshold := q }) with
  | Except.error e => Except.error e
  | Except.ok p4 =>
  match sp.region_bounds with
  | none => Except.ok p4
  | some r => Except.ok { p4 with region_bounds := r }

/-- handle_settings_update, lines 659 to 665 of src/app.py: call
update_settings, catch any exception; the tracker keeps whatever profile
state the call left behind, and the Boolean is the reported status
(true for success, false for the error response). -/
def handle_settings_update (p : Profile) (sp : SettingsPayload) :
    Profile × Bool :=
  match update_settings p sp with
  | Except.ok q => (q, true)
  | Except.error q => (q, false)

/-- Whether the payload contains a value the float conversion rejects. -/
def hasInvalid (sp : SettingsPayload) : Bool :=
  sp.sensitivity = some RawVal.invalid ||
  sp.smoothing = some RawVal.invalid ||
  sp.blink_threshold = some RawVal.invalid ||
  sp.mouth_threshold = some RawVal.invalid

/-- Claim C8: for every landmark set whose horizontal eye distance is zero,
that is, whose points p0 and p3 coincide, get_eye_aspect_ratio returns 0
through its guard instead of dividing.  The hypothesis on sq states that
the square root of 0 is 0, true of the numpy norm. -/
theorem c8_ear_zero_guard (sq : ℚ → ℚ) (hsq : sq 0 = 0) (landmarks : ℕ → Pt)
    (start : ℕ) (hzero : landmarks start = landmarks (start + 3)) :
    get_eye_aspect_ratio sq landmarks start = 0 := by
  have hd : distSq (landmarks start) (landmarks (start + 3)) = 0 := by
    rw [hzero]; unfold distSq; ring
  unfold get_eye_aspect_ratio
  simp only [hd, hsq]
  simp

/-- Witness for C8 at a concrete landmark set with all points equal. -/
theorem c8_ear_zero_guard_witness :
    get_eye_aspect_ratio id (fun _ => ((0 : ℚ), (0 : ℚ))) 36 = 0 :=
  c8_ear_zero_guard id rfl (fun _ => ((0 : ℚ), (0 : ℚ))) 36 rfl

/-- Claim C9: toggling pause twice with no intervening frame restores the
entire tracker state, so velocity, reference point, calibration buffer and
both gesture counters are all unchanged. -/
theorem c9_toggle_pause_involutive (s : TrackerState) :
    (toggle_pause (toggle_pause s).1).1 = s := by
  cases s
  simp [toggle_pause]

/-- Claim C10: when detect_blink reports a blink, the eye consecutive-frame
counter keeps its accumulated value, which is at least
EYE_AR_CONSEC_FRAMES; on a below-threshold frame the counter increments and
no event fires; the counter is reset to 0 exactly on condition-false frames
that do not trigger. -/
theorem c10_counter_retained_on_trigger (s : GestureState)
    (ear threshold now : ℚ) :
    ((detect_blink s ear threshold now).2 = true →
      (detect_blink s ear threshold now).1.eye_ar_counter = s.eye_ar_counter ∧
      Config.EYE_AR_CONSEC_FRAMES ≤ s.eye_ar_counter) ∧
    (ear < threshold →
      (detect_blink s ear threshold now).1.eye_ar_counter =
        s.eye_ar_counter + 1 ∧
      (detect_blink s ear threshold now).2 = false) ∧
    (¬ ear < threshold → (detect_blink s ear threshold now).2 = false →
      (detect_blink s ear threshold now).1.eye_ar_counter = 0) := by
  unfold detect_blink
  split_ifs with h1 h2
  · simp [h1]
  · simp [h1, h2.1]
  · simp [h1]

/-- Witness for C10: a triggering call with counter 2 keeps the counter. -/
theorem c10_counter_retained_witness :
    (detect_blink ⟨2, 0, 0, 0⟩ 1 0 5).2 = true ∧
    (detect_blink ⟨2, 0, 0, 0⟩ 1 0 5).1.eye_ar_counter = 2 := by
  have ht : (detect_blink ⟨2, 0, 0, 0⟩ 1 0 5).2 = true := by
    norm_num [detect_blink, Config.EYE_AR_CONSEC_FRAMES, Config.BLINK_COOLDOWN]
  refine ⟨ht, ?_⟩
  have h := (c10_counter_retained_on_trigger ⟨2, 0, 0, 0⟩ 1 0 5).1 ht
  exact h.1

/-- runBlink distributes over list append. -/
theorem runBlink_append (threshold : ℚ) (s : GestureState)
    (l1 l2 : List (ℚ × ℚ)) :
    runBlink threshold s (l1 ++ l2) =
      ((runBlink threshold (runBlink threshold s l1).1 l2).1,
       (runBlink threshold s l1).2 ++
         (runBlink threshold (runBlink threshold s l1).1 l2).2) := by
  induction l1 generalizing s with
  | nil => simp [runBlink]
  | cons p rest ih =>
    cases p
    simp [runBlink, ih]

/-- A run of frames all strictly below the threshold only increments the
eye counter, emits no event, and leaves the trigger clock alone. -/
theorem runBlink_below (threshold : ℚ) (frames : List (ℚ × ℚ))
    (s : GestureState) (h : ∀ p ∈ frames, p.1 < threshold) :
    runBlink threshold s frames =
      ({ s with eye_ar_counter := s.eye_ar_counter + frames.length },
       List.replicate frames.length false) := by
  induction frames generalizing s with
  | nil => simp [runBlink]
  | cons p rest ih =>
    obtain ⟨e, t⟩ := p
    have he : e < threshold := h (e, t) (List.mem_cons_self _ _)
    have hrest : ∀ q ∈ rest, q.1 < threshold :=
      fun q hq => h q (List.mem_cons_of_mem _ hq)
    simp only [runBlink, detect_blink, if_pos he,
      ih _ hrest, List.length_cons, List.replicate_succ, Prod.mk.injEq]
    constructor
    · congr 1
      omega
    · trivial

/-- Claim C4: holding the eye aspect ratio strictly below the threshold for
exactly EYE_AR_CONSEC_FRAMES frames and then rising, with the cooldown
elapsed, yields exactly one blink event, at the rising frame; repeating the
identical pattern with the second rise within BLINK_COOLDOWN of the trigger
yields no event at all; and in general detect_blink and detect_mouth_open
can only report an event when the respective cooldown has elapsed since the
last trigger. -/
theorem c4_blink_debounce (s : GestureState) (threshold : ℚ)
    (frames1 frames2 : List (ℚ × ℚ)) (r1 t3 r2 t6 : ℚ)
    (hc0 : s.eye_ar_counter = 0)
    (hlen1 : frames1.length = Config.EYE_AR_CONSEC_FRAMES)
    (hbelow1 : ∀ p ∈ frames1, p.1 < threshold)
    (hr1 : ¬ r1 < threshold)
    (hcool : Config.BLINK_COOLDOWN ≤ t3 - s.last_blink_time)
    (hlen2 : frames2.length = Config.EYE_AR_CONSEC_FRAMES)
    (hbelow2 : ∀ p ∈ frames2, p.1 < threshold)
    (hr2 : ¬ r2 < threshold)
    (hfast : t6 - t3 < Config.BLINK_COOLDOWN) :
    (runBlink threshold s
        (frames1 ++ [(r1, t3)] ++ frames2 ++ [(r2, t6)])).2 =
      List.replicate frames1.length false ++ [true] ++
        List.replicate frames2.length false ++ [false] ∧
    (∀ (s2 : GestureState) (ear now : ℚ),
      (detect_blink s2 ear threshold now).2 = true →
      Config.BLINK_COOLDOWN ≤ now - s2.last_blink_time) ∧
    (∀ (s2 : GestureState) (ratio th2 now : ℚ),
      (detect_mouth_open s2 ratio th2 now).2 = true →
      Config.MOUTH_COOLDOWN ≤ now - s2.last_mouth_time) := by
  refine ⟨?_, ?_, ?_⟩
  · have h1 := runBlink_below threshold frames1 s hbelow1
    rw [runBlink_append, runBlink_append, runBlink_append, h1]
    have hstep3 : detect_blink
        { s with eye_ar_counter := s.eye_ar_counter + frames1.length }
        r1 threshold t3 =
        ({ s with eye_ar_counter := s.eye_ar_counter + frames1.length,
                  last_blink_time := t3 }, true) := by
      unfold detect_blink
      rw [if_neg hr1, if_pos ⟨show Config.EYE_AR_CONSEC_FRAMES ≤
        s.eye_ar_counter + frames1.length by omega, hcool⟩]
    simp only [runBlink, hstep3]
    have h2 := runBlink_below threshold frames2
      { s with eye_ar_counter := s.eye_ar_counter + frames1.length,
               last_blink_time := t3 } hbelow2
    simp only [h2]
    have hstep6 : (detect_blink
        { s with eye_ar_counter :=
                   s.eye_ar_counter + frames1.length + frames2.length,
                 last_blink_time := t3 }
        r2 threshold t6).2 = false := by
      unfold detect_blink
      rw [if_neg hr2, if_neg]
      intro hcond
      exact absurd hcond.2 (not_le.mpr hfast)
    simp [runBlink, hstep6]
  · intro s2 ear now h
    simp only [detect_blink] at h
    split_ifs at h with h1 h2
    exact h2.2
  · intro s2 ratio th2 now h
    simp only [detect_mouth_open] at h
    split_ifs at h with h1 h2
    exact h2.2

/-- Witness for C4 at a fully concrete trace: two frames below threshold,
a rise at time 4 that triggers, two more below, and a rise at time 4.5
inside the cooldown that does not. -/
theorem c4_blink_debounce_witness :
    (runBlink 1 ⟨0, 0, 0, 0⟩
        ([((0 : ℚ), 2), (0, 3)] ++ [(2, 4)] ++
          [((0 : ℚ), 5), (0, 6)] ++ [(2, 9 / 2)])).2 =
      [false, false, true, false, false, false] := by
  have h := (c4_blink_debounce ⟨0, 0, 0, 0⟩ 1
    [((0 : ℚ), 2), (0, 3)] [((0 : ℚ), 5), (0, 6)] 2 4 2 (9 / 2)
    rfl rfl (by decide) (by decide) (by norm_num [Config.BLINK_COOLDOWN])
    rfl (by decide) (by decide)
    (by norm_num [Config.BLINK_COOLDOWN])).1
  simpa using h

/-- Claim C1 (code bug): feeding CALIBRATION_FRAMES identical copies of a
point and then the committing call does not succeed.  With zero variance
the strict two-sigma filter retains no point at all, so the commit fails,
the tracker stays uncalibrated with no reference point, and the buffer is
emptied; every one of the 16 calls returns False. -/
theorem c1_identical_points_calibration_fails :
    (runCalibrate (initTracker 1920 1080 0)
        (List.replicate (Config.CALIBRATION_FRAMES + 1)
          (((100 : ℚ), (100 : ℚ)) : Pt))).2 =
      List.replicate (Config.CALIBRATION_FRAMES + 1) false ∧
    (runCalibrate (initTracker 1920 1080 0)
        (List.replicate (Config.CALIBRATION_FRAMES + 1)
          (((100 : ℚ), (100 : ℚ)) : Pt))).1.is_calibrated = false ∧
    (runCalibrate (initTracker 1920 1080 0)
        (List.replicate (Config.CALIBRATION_FRAMES + 1)
          (((100 : ℚ), (100 : ℚ)) : Pt))).1.reference_point = none ∧
    (runCalibrate (initTracker 1920 1080 0)
        (List.replicate (Config.CALIBRATION_FRAMES + 1)
          (((100 : ℚ), (100 : ℚ)) : Pt))).1.calibration_points = [] := by
  have hrun : runCalibrate (initTracker 1920 1080 0)
      (List.replicate (Config.CALIBRATION_FRAMES + 1)
        (((100 : ℚ), (100 : ℚ)) : Pt)) =
      ({ initTracker 1920 1080 0 with calibration_points := [] },
       List.replicate (Config.CALIBRATION_FRAMES + 1) false) := by
    norm_num [runCalibrate, calibrate, goodPoints, listMean, initTracker,
      defaultProfile, Config.CALIBRATION_FRAMES, Config.CALIBRATION_THRESHOLD,
      List.replicate]
  rw [hrun]
  refine ⟨rfl, rfl, rfl, rfl⟩

/-- The calibration buffer used by the C3 counterexample: fourteen
identical points and one far outlier, a full buffer of fifteen. -/
def c3state : TrackerState :=
  { initTracker 1920 1080 0 with
    calibration_points :=
      List.replicate 14 (((0 : ℚ), (0 : ℚ)) : Pt) ++ [((100 : ℚ), (100 : ℚ))] }

/-- Claim C3 (counterexample): on this full buffer the commit succeeds,
fourteen good points remain and their mean becomes the reference, but the
buffer is NOT cleared; it still holds its fifteen points afterwards. -/
theorem c3_success_keeps_buffer :
    (calibrate c3state ((0 : ℚ), (0 : ℚ))).2 = true ∧
    (calibrate c3state ((0 : ℚ), (0 : ℚ))).1.calibration_points ≠ [] := by
  constructor <;>
    norm_num [calibrate, goodPoints, listMean, meanPoint, c3state, initTracker,
      defaultProfile, Config.CALIBRATION_FRAMES, Config.CALIBRATION_THRESHOLD,
      List.replicate] <;>
    simp

/-- Claim C3 (amended): on a full buffer, if at least CALIBRATION_FRAMES
times CALIBRATION_THRESHOLD good points remain, the commit sets the
reference to the mean of the good points, marks calibrated, zeroes the
velocity and returns True while leaving the buffer unchanged; otherwise it
empties the buffer and returns False. -/
theorem c3_amended_commit (s : TrackerState) (p : Pt)
    (hfull : Config.CALIBRATION_FRAMES ≤ s.calibration_points.length) :
    ((Config.CALIBRATION_FRAMES : ℚ) * Config.CALIBRATION_THRESHOLD ≤
        ((goodPoints s.calibration_points).length : ℚ) →
      calibrate s p =
        ({ s with reference_point :=
                    some (meanPoint (goodPoints s.calibration_points)),
                  is_calibrated := true,
                  velocity := (0, 0) }, true)) ∧
    (((goodPoints s.calibration_points).length : ℚ) <
        (Config.CALIBRATION_FRAMES : ℚ) * Config.CALIBRATION_THRESHOLD →
      calibrate s p = ({ s with calibration_points := [] }, false)) := by
  unfold calibrate
  rw [if_neg (by omega)]
  constructor
  · intro hg
    rw [if_pos hg]
  · intro hg
    rw [if_neg (not_le.mpr hg)]

/-- Witness for the amended C3 at the concrete full buffer of c3state. -/
theorem c3_amended_commit_witness :
    (calibrate c3state ((0 : ℚ), (0 : ℚ))).2 = true := by
  have h := (c3_amended_commit c3state ((0 : ℚ), (0 : ℚ))
    (by norm_num [c3state, initTracker, defaultProfile,
      Config.CALIBRATION_FRAMES, List.replicate])).1
    (by norm_num [c3state, initTracker, defaultProfile, goodPoints, listMean,
      Config.CALIBRATION_FRAMES, Config.CALIBRATION_THRESHOLD, List.replicate])
  rw [h]

/-- The tracker state of the C5 counterexample: calibrated, tracking, and
paused. -/
def c5state : TrackerState :=
  { initTracker 1920 1080 0 with
    is_calibrated := true
    is_paused := true
    reference_point := some (0, 0) }

/-- Claim C5 (counterexample): with the tracker paused but calibrated and
tracking, update_position still returns a cursor target; the pause flag is
never consulted inside update_position. -/
theorem c5_paused_still_returns_target :
    c5state.is_paused = true ∧ c5state.is_calibrated = true ∧
    c5state.is_tracking = true ∧
    (update_position (fun _ => 0) c5state (0, 0) 1 (500, 500)).2 =
      some (500, 500) := by
  refine ⟨rfl, rfl, rfl, ?_⟩
  norm_num [update_position, c5state, initTracker, defaultProfile,
    next_velocity, powExpand, rsign, clipQ, ratTrunc, min_def, max_def,
    Config.MOUSE_SPEED,
    Config.SMOOTH_FACTOR, Config.MOVEMENT_THRESHOLD, Config.SCREEN_PADDING,
    Config.ACCELERATION_FACTOR, Config.DECELERATION_FACTOR]

/-- Claim C5 (amended): update_position returns no cursor target whenever
the tracker is not calibrated or not tracking; the paused case is handled
one level up, in process_frame, which produces no cursor target while
paused. -/
theorem c5_amended_none_guards (sq : ℚ → ℚ) (s : TrackerState) (fp : Pt)
    (now : ℚ) (cp : Pt) :
    (s.is_calibrated = false ∨ s.is_tracking = false →
      (update_position sq s fp now cp).2 = none) ∧
    (s.is_paused = true → process_frame_target sq s fp now cp = none) := by
  constructor
  · intro h
    rcases h with h | h <;> simp [update_position, h]
  · intro h
    rcases hb : s.is_tracking <;>
      simp [process_frame_target, hb, h]

/-- Witness for the amended C5: a fresh tracker is uncalibrated, so
update_position yields nothing; a paused state yields no frame target. -/
theorem c5_amended_none_guards_witness :
    (update_position (fun _ => 0) (initTracker 1920 1080 0)
        (0, 0) 1 (0, 0)).2 = none ∧
    process_frame_target (fun _ => 0) c5state (0, 0) 1 (500, 500) = none :=
  ⟨(c5_amended_none_guards (fun _ => 0) (initTracker 1920 1080 0)
      (0, 0) 1 (0, 0)).1 (Or.inl rfl),
   (c5_amended_none_guards (fun _ => 0) c5state
      (0, 0) 1 (500, 500)).2 rfl⟩

/-- The tracker state of the C6 counterexample: tracking, calibrated, with
a reference point set. -/
def c6state : TrackerState :=
  { initTracker 1920 1080 0 with
    is_calibrated := true
    reference_point := some (1, 2) }

/-- Claim C6 (counterexample): toggling tracking off from the tracking
state leaves the old reference point in place rather than clearing it;
only the calibrated flag and the buffer are reset. -/
theorem c6_reference_not_cleared :
    c6state.is_tracking = true ∧
    (toggle_tracking c6state).1.reference_point = some (1, 2) := by
  exact ⟨rfl, rfl⟩

/-- Claim C6 (amended): toggling tracking from the tracking state turns
tracking off, drops the calibrated flag and empties the buffer, so
re-entry must recalibrate, but the reference point variable keeps its
stale value. -/
theorem c6_amended_toggle_off (s : TrackerState) (h : s.is_tracking = true) :
    (toggle_tracking s).1.is_tracking = false ∧
    (toggle_tracking s).1.is_calibrated = false ∧
    (toggle_tracking s).1.calibration_points = [] ∧
    (toggle_tracking s).1.reference_point = s.reference_point ∧
    (toggle_tracking s).2 = false := by
  simp [toggle_tracking, h]

/-- Witness for the amended C6 at the concrete tracking state c6state. -/
theorem c6_amended_toggle_off_witness :
    (toggle_tracking c6state).1.is_tracking = false ∧
    (toggle_tracking c6state).1.reference_point = c6state.reference_point :=
  ⟨(c6_amended_toggle_off c6state rfl).1,
   (c6_amended_toggle_off c6state rfl).2.2.2.1⟩

/-- The settings payload of the C7 counterexample: a valid sensitivity
followed by a non-numeric smoothing value. -/
def c7payload : SettingsPayload :=
  { sensitivity := some (RawVal.num 2)
    smoothing := some RawVal.invalid
    blink_threshold := none
    mouth_threshold := none
    region_bounds := none }

/-- Claim C7 (counterexample): this invalid payload is rejected with an
error as claimed, but the profile is NOT left unchanged; its sensitivity
has already been overwritten when the failure is reported. -/
theorem c7_partial_mutation :
    (handle_settings_update defaultProfile c7payload).2 = false ∧
    (handle_settings_update defaultProfile c7payload).1.sensitivity = 2 ∧
    (handle_settings_update defaultProfile c7payload).1 ≠ defaultProfile := by
  refine ⟨rfl, rfl, ?_⟩
  intro hc
  have h2 := congrArg Profile.sensitivity hc
  norm_num [handle_settings_update, update_settings, applyField, c7payload,
    defaultProfile] at h2

/-- Claim C7 (amended): a payload with an invalid numeric value is always
rejected with an error reported to the caller, and fields at or after the
first invalid one, in particular mouth_threshold and region_bounds, are
unchanged; but the update is not atomic: a valid field processed before
the invalid one keeps its new value, as the sensitivity-then-smoothing
case shows. -/
theorem c7_amended_settings (p : Profile) (sp : SettingsPayload)
    (h : hasInvalid sp = true) :
    (handle_settings_update p sp).2 = false ∧
    (handle_settings_update p sp).1.mouth_threshold = p.mouth_threshold ∧
    (handle_settings_update p sp).1.region_bounds = p.region_bounds ∧
    (sp.sensitivity = some RawVal.invalid →
      (handle_settings_update p sp).1 = p) ∧
    (∀ q : ℚ, sp.sensitivity = some (RawVal.num q) →
      sp.smoothing = some RawVal.invalid →
      (handle_settings_update p sp).1 = { p with sensitivity := q }) := by
  obtain ⟨f1, f2, f3, f4, f5⟩ := sp
  rcases f1 with _ | (q1 | _) <;> rcases f2 with _ | (q2 | _) <;>
    rcases f3 with _ | (q3 | _) <;> rcases f4 with _ | (q4 | _) <;>
    simp_all [handle_settings_update, update_settings, applyField, hasInvalid]

/-- Witness for the amended C7 at the concrete payload c7payload. -/
theorem c7_amended_settings_witness :
    (handle_settings_update defaultProfile c7payload).2 = false :=
  (c7_amended_settings defaultProfile c7payload rfl).1

/-- Truncating the clip of a rational to integer bounds keeps it between
the bounds, provided the lower bound is nonnegative and at most the upper
bound. -/
theorem ratTrunc_clipQ_mem (v : ℚ) (lo hi : ℤ) (h0 : 0 ≤ lo)
    (hlh : lo ≤ hi) :
    lo ≤ ratTrunc (clipQ v (lo : ℚ) (hi : ℚ)) ∧
    ratTrunc (clipQ v (lo : ℚ) (hi : ℚ)) ≤ hi := by
  have hc1 : (lo : ℚ) ≤ clipQ v (lo : ℚ) (hi : ℚ) :=
    le_min (le_max_right _ _) (by exact_mod_cast hlh)
  have hc2 : clipQ v (lo : ℚ) (hi : ℚ) ≤ (hi : ℚ) := min_le_right _ _
  have h0q : (0 : ℚ) ≤ clipQ v (lo : ℚ) (hi : ℚ) :=
    le_trans (by exact_mod_cast h0) hc1
  unfold ratTrunc
  rw [if_pos h0q]
  refine ⟨Int.le_floor.mpr hc1, ?_⟩
  calc ⌊clipQ v (lo : ℚ) (hi : ℚ)⌋ ≤ ⌊(hi : ℚ)⌋ := Int.floor_mono hc2
    _ = hi := Int.floor_intCast hi

set_option maxHeartbeats 1600000 in
/-- Whenever update_position returns a target and each screen dimension is
at least twice the padding, the target lies in the padded screen
rectangle. -/
theorem update_position_bounds (sq : ℚ → ℚ) (s : TrackerState) (fp : Pt)
    (now : ℚ) (cp : Pt) (t : ℤ × ℤ)
    (hw : 2 * Config.SCREEN_PADDING ≤ s.screen_w)
    (hh : 2 * Config.SCREEN_PADDING ≤ s.screen_h)
    (ht : (update_position sq s fp now cp).2 = some t) :
    Config.SCREEN_PADDING ≤ t.1 ∧
    t.1 ≤ s.screen_w - Config.SCREEN_PADDING ∧
    Config.SCREEN_PADDING ≤ t.2 ∧
    t.2 ≤ s.screen_h - Config.SCREEN_PADDING := by
  have hpad : (0 : ℤ) ≤ Config.SCREEN_PADDING := by decide
  have hcastw : ((s.screen_w - Config.SCREEN_PADDING : ℤ) : ℚ) =
      (s.screen_w : ℚ) - (Config.SCREEN_PADDING : ℚ) := by push_cast; ring
  have hcasth : ((s.screen_h - Config.SCREEN_PADDING : ℤ) : ℚ) =
      (s.screen_h : ℚ) - (Config.SCREEN_PADDING : ℚ) := by push_cast; ring
  unfold update_position at ht
  split at ht
  · simp at ht
  · split at ht
    · simp at ht
    · obtain ⟨t1, t2⟩ := t
      simp only [Option.some.injEq, Prod.mk.injEq] at ht
      obtain ⟨ht1, ht2⟩ := ht
      subst ht1
      subst ht2
      rw [← hcastw, ← hcasth]
      exact ⟨(ratTrunc_clipQ_mem _ _ _ hpad (by omega)).1,
             (ratTrunc_clipQ_mem _ _ _ hpad (by omega)).2,
             (ratTrunc_clipQ_mem _ _ _ hpad (by omega)).1,
             (ratTrunc_clipQ_mem _ _ _ hpad (by omega)).2⟩

/-- Claim C2 (amended): whenever process_frame_target yields a cursor
target and each screen dimension is at least twice the padding, the target
lies in the padded screen rectangle when no region lock is set; when a
region lock is set, the target lies within the region, and it lies within
the intersection of the region and the padded rectangle whenever that
intersection is nonempty, but the region clamp is applied last, so a
region outside the padded rectangle pulls the target out of it. -/
theorem c2_amended_clamping (sq : ℚ → ℚ) (s : TrackerState) (fp : Pt)
    (now : ℚ) (cp : Pt) (t : ℤ × ℤ)
    (hw : 2 * Config.SCREEN_PADDING ≤ s.screen_w)
    (hh : 2 * Config.SCREEN_PADDING ≤ s.screen_h)
    (ht : process_frame_target sq s fp now cp = some t) :
    (s.current_profile.region_bounds = none →
      Config.SCREEN_PADDING ≤ t.1 ∧
      t.1 ≤ s.screen_w - Config.SCREEN_PADDING ∧
      Config.SCREEN_PADDING ≤ t.2 ∧
      t.2 ≤ s.screen_h - Config.SCREEN_PADDING) ∧
    (∀ x1 y1 x2 y2 : ℤ,
      s.current_profile.region_bounds = some (x1, y1, x2, y2) →
      (x1 ≤ x2 → x1 ≤ t.1 ∧ t.1 ≤ x2) ∧
      (y1 ≤ y2 → y1 ≤ t.2 ∧ t.2 ≤ y2) ∧
      (max Config.SCREEN_PADDING x1 ≤
          min (s.screen_w - Config.SCREEN_PADDING) x2 →
        max Config.SCREEN_PADDING x1 ≤ t.1 ∧
        t.1 ≤ min (s.screen_w - Config.SCREEN_PADDING) x2) ∧
      (max Config.SCREEN_PADDING y1 ≤
          min (s.screen_h - Config.SCREEN_PADDING) y2 →
        max Config.SCREEN_PADDING y1 ≤ t.2 ∧
        t.2 ≤ min (s.screen_h - Config.SCREEN_PADDING) y2)) := by
  unfold process_frame_target at ht
  split at ht
  · simp at ht
  · split at ht
    · simp at ht
    · split at ht
      · simp at ht
      · rcases hu : (update_position sq s fp now cp).2 with _ | u
        · rw [hu] at ht
          simp at ht
        · rw [hu] at ht
          have hb := update_position_bounds sq s fp now cp u hw hh hu
          rcases hr : s.current_profile.region_bounds with _ | ⟨x1, y1, x2, y2⟩
          · rw [hr] at ht
            simp only [Option.some.injEq] at ht
            subst ht
            refine ⟨fun _ => ⟨hb.1, hb.2.1, hb.2.2.1, hb.2.2.2⟩, ?_⟩
            intro x1 y1 x2 y2 hcon
            exact absurd hcon (by simp)
          · rw [hr] at ht
            simp only [Option.some.injEq] at ht
            subst ht
            constructor
            · intro hcon
              exact absurd hcon (by simp)
            · intro a1 b1 a2 b2 heq
              simp only [Option.some.injEq, Prod.mk.injEq] at heq
              obtain ⟨h1, h2, h3, h4⟩ := heq
              subst h1
              subst h2
              subst h3
              subst h4
              obtain ⟨hbx1, hbx2, hby1, hby2⟩ := hb
              refine ⟨?_, ?_, ?_, ?_⟩
              · intro hx
                unfold clipZ
                omega
              · intro hy
                unfold clipZ
                omega
              · intro hx
                unfold clipZ
                omega
              · intro hy
                unfold clipZ
                omega

/-- The tracker state of the C2 counterexample: calibrated and tracking
with a region lock entirely outside the padded screen rectangle. -/
def c2state : TrackerState :=
  { initTracker 1920 1080 0 with
    is_calibrated := true
    reference_point := some (0, 0)
    current_profile :=
      { defaultProfile with region_bounds := some (10, 10, 40, 40) } }

/-- Claim C2 (counterexample): with the region lock x and y ranges 10 to
40, the produced cursor target is exactly 40 on both axes, which violates
the claimed padded-screen bound 50 even though a region is active, because
the region clamp is applied after, not intersected with, the padding
clamp. -/
theorem c2_region_outside_padding :
    process_frame_target (fun _ => 0) c2state (0, 0) 1 (500, 500) =
      some (40, 40) ∧
    ¬ (Config.SCREEN_PADDING ≤ (40 : ℤ) ∧
       (40 : ℤ) ≤ c2state.screen_w - Config.SCREEN_PADDING) := by
  constructor
  · norm_num [process_frame_target, update_position, c2state, initTracker,
      defaultProfile, next_velocity, powExpand, rsign, clipQ, clipZ, ratTrunc, min_def,
      max_def, Config.MOUSE_SPEED, Config.SMOOTH_FACTOR,
      Config.MOVEMENT_THRESHOLD, Config.SCREEN_PADDING,
      Config.ACCELERATION_FACTOR, Config.DECELERATION_FACTOR]
  · intro hcon
    have h1 := hcon.1
    norm_num [Config.SCREEN_PADDING] at h1

/-- The tracker state of the C2 witness: calibrated and tracking with no
region lock. -/
def c2wstate : TrackerState :=
  { initTracker 1920 1080 0 with
    is_calibrated := true
    reference_point := some (0, 0) }

/-- Witness for the amended C2 at a concrete state with no region lock. -/
theorem c2_amended_clamping_witness :
    Config.SCREEN_PADDING ≤ (500 : ℤ) ∧
    (500 : ℤ) ≤ c2wstate.screen_w - Config.SCREEN_PADDING := by
  have hp : process_frame_target (fun _ => 0) c2wstate (0, 0) 1 (500, 500) =
      some (500, 500) := by
    norm_num [process_frame_target, update_position, c2wstate, initTracker,
      defaultProfile, next_velocity, powExpand, rsign, clipQ, ratTrunc, min_def,
      max_def, Config.MOUSE_SPEED, Config.SMOOTH_FACTOR,
      Config.MOVEMENT_THRESHOLD, Config.SCREEN_PADDING,
      Config.ACCELERATION_FACTOR, Config.DECELERATION_FACTOR]
  have h := (c2_amended_clamping (fun _ => 0) c2wstate (0, 0) 1 (500, 500)
    (500, 500) (by decide) (by decide) hp).1 rfl
  exact ⟨h.1, h.2.1⟩

end CursorCam

